import Mathlib

/-!
Shallow embedding of `src/server.js` (Amp Task Management backend proxy).

The server translates local REST CRUD requests on `/api/tasks` into calls to
a remote RPC endpoint (`{method, params}` over POST).  The embedding models:
  - JSON values (as produced by `JSON.parse`; no `undefined` member, absence
    of an object key is modelled by `Option`),
  - JavaScript truthiness where the source relies on it,
  - `getApiKey` (credential resolution from a secrets file and an env var),
  - `parseInt` on strings (base 10 with the `0x` hex prefix),
  - the params builders of the GET-list, POST-create and PUT-update handlers
    including the "Remove undefined values" step,
  - `ampApiRequest` (missing-key check, envelope unwrap, error messages),
  - the route dispatch and the top-level catch that renders every thrown
    error as HTTP 500 with body `{ok:false, error:<message>}`.
-/

/-- JSON values as returned by `JSON.parse`.  Numbers are modelled as
integers (every numeric value the server itself constructs is an integer;
remote payloads are passed through opaquely). -/
inductive JsValue where
  | null : JsValue
  | bool : Bool → JsValue
  | num : Int → JsValue
  | str : String → JsValue
  | arr : List JsValue → JsValue
  | obj : List (String × JsValue) → JsValue

/-- JavaScript truthiness of a (defined) JSON value: `null`, `false`, `0`
and `""` are falsy, everything else (objects and arrays included) truthy. -/
def JsValue.truthy : JsValue → Bool
  | .null => false
  | .bool b => b
  | .num n => n ≠ 0
  | .str s => s ≠ ""
  | .arr _ => true
  | .obj _ => true

/-- Property access `o.k` on a parsed JSON value: a lookup when `o` is an
object, `undefined` (`none`) on any non-object.  (Access on `null` throws in
JS; the only such site, `parsed.ok`, is modelled explicitly at its caller.) -/
def objGet (v : JsValue) (k : String) : Option JsValue :=
  match v with
  | .obj fields => fields.lookup k
  | _ => none

/-- `a || d` where `a` is a possibly-undefined JS value (`none` =
`undefined`): returns `a` when defined and truthy, else the default. -/
def jsOrDefault (a : Option JsValue) (d : JsValue) : JsValue :=
  match a with
  | some v => if v.truthy then v else d
  | none => d

/-- `a || b` on string-or-undefined JS expressions: an empty string is
falsy, so the chain moves on past it. -/
def strOr : Option String → Option String → Option String
  | some s, b => if s = "" then b else some s
  | none, b => b

/-- Truthiness of a string-or-undefined value (`!x` in the source is the
negation of this). -/
def optStrTruthy : Option String → Bool
  | some s => s ≠ ""
  | none => false

/-- The service-qualified secrets key `apiKey@https://ampcode.com/`. -/
def serviceApiKeyName : String := "apiKey@https://ampcode.com/"

/-- `getApiKey` from `src/server.js`: the parsed secrets file is a JSON
object of string values (`none` for the whole file means
`readFileSync`/`JSON.parse` threw, in which case the `catch` returns the
env var).  Otherwise `secrets[serviceKey] || secrets[genericKey] || env`. -/
def getApiKey (file : Option (List (String × String))) (env : Option String) :
    Option String :=
  match file with
  | none => env
  | some secrets =>
      strOr (secrets.lookup serviceApiKeyName) (strOr (secrets.lookup "apiKey") env)

/-- Whitespace characters stripped by JS `parseInt` before parsing. -/
def jsWhitespace (c : Char) : Bool :=
  c = ' ' || c = '\t' || c = '\n' || c = '\r' || c = '\x0b' || c = '\x0c'

/-- Value of a hexadecimal digit character, if it is one. -/
def hexDigitVal (c : Char) : Option Nat :=
  if '0' ≤ c ∧ c ≤ '9' then some (c.toNat - '0'.toNat)
  else if 'a' ≤ c ∧ c ≤ 'f' then some (c.toNat - 'a'.toNat + 10)
  else if 'A' ≤ c ∧ c ≤ 'F' then some (c.toNat - 'A'.toNat + 10)
  else none

/-- Value of a decimal digit character, if it is one. -/
def decDigitVal (c : Char) : Option Nat :=
  if '0' ≤ c ∧ c ≤ '9' then some (c.toNat - '0'.toNat) else none

/-- Longest leading run of digits interpreted in the given base; `none`
(NaN) when there is no leading digit at all. -/
def digitsVal (dv : Char → Option Nat) (base : Nat) (cs : List Char) : Option Nat :=
  let ds := (cs.takeWhile fun c => (dv c).isSome).filterMap dv
  if ds.isEmpty then none
  else some (ds.foldl (fun acc d => acc * base + d) 0)

/-- JS `parseInt(s)` (radix argument omitted): skip leading whitespace, an
optional sign, then either a `0x`/`0X` hex literal or decimal digits; `none`
models NaN. -/
def parseIntJS (s : String) : Option Int :=
  let cs := s.data.dropWhile jsWhitespace
  let signed : Int × List Char :=
    match cs with
    | '-' :: rest => (-1, rest)
    | '+' :: rest => (1, rest)
    | _ => (1, cs)
  let hexed : Bool × List Char :=
    match signed.2 with
    | '0' :: 'x' :: rest => (true, rest)
    | '0' :: 'X' :: rest => (true, rest)
    | _ => (false, signed.2)
  let r := if hexed.1 then digitsVal hexDigitVal 16 hexed.2
           else digitsVal decDigitVal 10 hexed.2
  r.map fun n => signed.1 * (n : Int)

/-- `parseInt(url.searchParams.get("limit")) || 100`: an absent parameter
gives `parseInt(null)` = NaN, and both NaN and 0 are falsy, so they fall
back to 100. -/
def limitOf (q : List (String × String)) : Int :=
  match q.lookup "limit" with
  | none => 100
  | some s =>
      match parseIntJS s with
      | none => 100
      | some n => if n = 0 then 100 else n

/-- Params built by the `GET /api/tasks` handler: `{ limit }` always, then
`status` / `repoURL` when the query string value is truthy, then
`ready: true` exactly when the query value is the literal string `true`. -/
def listParams (q : List (String × String)) : List (String × JsValue) :=
  [("limit", JsValue.num (limitOf q))]
  ++ (match q.lookup "status" with
      | some s => if s = "" then [] else [("status", JsValue.str s)]
      | none => [])
  ++ (match q.lookup "repoURL" with
      | some s => if s = "" then [] else [("repoURL", JsValue.str s)]
      | none => [])
  ++ (if q.lookup "ready" = some "true" then [("ready", JsValue.bool true)] else [])

/-- Property access `body.k` on the parsed request body (`none` =
`undefined`, i.e. the key is absent). -/
def jget (b : List (String × JsValue)) (k : String) : Option JsValue :=
  b.lookup k

/-- The "Remove undefined values" step: drop every key whose value is
`undefined`, keeping order (JS objects preserve insertion order). -/
def stripUndef (l : List (String × Option JsValue)) : List (String × JsValue) :=
  l.filterMap fun kv => kv.2.map fun v => (kv.1, v)

/-- Params built by the `POST /api/tasks` handler before the remote call:
the six fields in source order, `status` defaulted with `|| "open"`, then
undefined values removed. -/
def createParams (b : List (String × JsValue)) : List (String × JsValue) :=
  stripUndef
    [("title", jget b "title"),
     ("description", jget b "description"),
     ("status", some (jsOrDefault (jget b "status") (JsValue.str "open"))),
     ("repoURL", jget b "repoURL"),
     ("dependsOn", jget b "dependsOn"),
     ("parentID", jget b "parentID")]

/-- Params built by the `PUT /api/tasks/:id` handler: `taskID` from the
path plus the optional field set (no default for `status`), then undefined
values removed. -/
def updateParams (t : String) (b : List (String × JsValue)) : List (String × JsValue) :=
  stripUndef
    [("taskID", some (JsValue.str t)),
     ("title", jget b "title"),
     ("description", jget b "description"),
     ("status", jget b "status"),
     ("repoURL", jget b "repoURL"),
     ("dependsOn", jget b "dependsOn"),
     ("parentID", jget b "parentID")]

mutual

/-- JS `String(v)` on a parsed JSON value, as applied by `new Error(m)` to a
non-string message: `null` prints as `"null"`, arrays join their elements
with commas (a `null` element joins as the empty string), plain objects
print as `[object Object]`. -/
def jsToString : JsValue → String
  | .null => "null"
  | .bool b => if b then "true" else "false"
  | .num n => toString n
  | .str s => s
  | .arr xs => String.intercalate "," (jsElemStrings xs)
  | .obj _ => "[object Object]"

/-- Element strings of `Array.prototype.toString`: `null` elements become
the empty string. -/
def jsElemStrings : List JsValue → List String
  | [] => []
  | JsValue.null :: rest => "" :: jsElemStrings rest
  | v :: rest => jsToString v :: jsElemStrings rest

end

/-- The optional chain `parsed.error?.message`: `undefined` when `parsed`
has no `error` field, when `error` is `null` (the chain short-circuits), or
when `error` is not an object (primitives and arrays have no `message`
property). -/
def errMsgField (v : JsValue) : Option JsValue :=
  match objGet v "error" with
  | none => none
  | some JsValue.null => none
  | some (JsValue.obj fs) => fs.lookup "message"
  | some _ => none

/-- Message of the error rejected for a falsy envelope:
`new Error(parsed.error?.message || "API request failed")`. -/
def remoteErrorMessage (v : JsValue) : String :=
  jsToString (jsOrDefault (errMsgField v) (JsValue.str "API request failed"))

/-- Truthiness of `parsed.ok` (an absent field is `undefined`, falsy). -/
def okTruthy (v : JsValue) : Bool :=
  match objGet v "ok" with
  | some w => w.truthy
  | none => false

/-- Outcome of the HTTPS round trip, before the adapter's own handling:
a network-level error (the `req.on("error")` rejection, carrying the error
message), a response body `JSON.parse` rejects, or a parsed JSON body. -/
inductive Wire where
  | reject : String → Wire
  | invalidJson : Wire
  | json : JsValue → Wire

/-- The response-unwrapping logic of `ampApiRequest`: an unparseable body
rejects with the fixed message; a parsed `null` makes `parsed.ok` throw,
which the same `catch` turns into that fixed message; an envelope with a
falsy `ok` rejects with `parsed.error?.message || "API request failed"`;
otherwise the parsed envelope resolves unchanged. -/
def unwrapWire : Wire → Except String JsValue
  | .reject m => .error m
  | .invalidJson => .error "Invalid JSON response from API"
  | .json JsValue.null => .error "Invalid JSON response from API"
  | .json v => if okTruthy v then .ok v else .error (remoteErrorMessage v)

/-- The error message thrown when no API key is resolvable. -/
def noApiKeyMsg : String :=
  "No API key found. Please ensure ~/.local/share/amp/secrets.json exists"

/-- A remote call actually issued: the RPC method name and the params. -/
structure RemoteCall where
  method : String
  params : List (String × JsValue)

/-- `ampApiRequest`: resolve the key, throw before any network activity
when it is falsy, otherwise issue exactly one HTTPS request and unwrap the
response.  The second component records the call issued (`none` = no
request reached the network). -/
def ampApiRequest (key : Option String) (wire : Wire) (method : String)
    (params : List (String × JsValue)) : Except String JsValue × Option RemoteCall :=
  if optStrTruthy key then (unwrapWire wire, some ⟨method, params⟩)
  else (Except.error noApiKeyMsg, none)

/-- A local HTTP response as written by `sendJson`: status code and JSON
body. -/
structure HttpResponse where
  status : Nat
  body : JsValue

/-- The uniform error body `{ok:false, error:<message>}` of the top-level
catch. -/
def errBody (m : String) : JsValue :=
  JsValue.obj [("ok", JsValue.bool false), ("error", JsValue.str m)]

/-- The top-level catch response: HTTP 500 with the uniform error body. -/
def err500 (m : String) : HttpResponse :=
  ⟨500, errBody m⟩

/-- A resolved remote result rendered to the client: success passes the
envelope through with the route's success status, a thrown error is caught
at the top level and rendered as 500. -/
def respond : Except String JsValue → Nat → HttpResponse
  | .ok v, okStatus => ⟨okStatus, v⟩
  | .error m, _ => err500 m

/-- Outcome of `parseBody` on the local request: rejected (body present but
not valid JSON) or a parsed JSON object.  An empty body parses to `{}`. -/
inductive BodyOutcome where
  | invalid : BodyOutcome
  | parsed : List (String × JsValue) → BodyOutcome

/-- The HTTP verbs the `/api/tasks` dispatch distinguishes. -/
inductive Verb where
  | get | post | put | delete
deriving DecidableEq

/-- `pathParts[2]` filtered through JS truthiness: the dispatch tests
`taskId` / `!taskId`, so an empty string behaves like an absent id. -/
def truthyId : Option String → Option String
  | some t => if t = "" then none else some t
  | none => none

/-- The `/api/tasks` route dispatch of `src/server.js`, one local request
end to end: verb and path id select the handler, the handler builds params,
calls `ampApiRequest` and renders the result; `none` means no route matched
(the request falls through to static-file serving, out of scope).  The
second component of a match is the remote call issued, if any. -/
def handleTasks (verb : Verb) (taskId : Option String) (query : List (String × String))
    (body : BodyOutcome) (file : Option (List (String × String))) (env : Option String)
    (wire : Wire) : Option (HttpResponse × Option RemoteCall) :=
  let key := getApiKey file env
  match verb, truthyId taskId with
  | .get, none =>
      let rc := ampApiRequest key wire "listTasks" (listParams query)
      some (respond rc.1 200, rc.2)
  | .get, some t =>
      let rc := ampApiRequest key wire "getTask" [("taskID", JsValue.str t)]
      some (respond rc.1 200, rc.2)
  | .post, none =>
      match body with
      | .invalid => some (err500 "Invalid JSON in request body", none)
      | .parsed b =>
          let rc := ampApiRequest key wire "createTask" (createParams b)
          some (respond rc.1 201, rc.2)
  | .post, some _ => none
  | .put, some t =>
      match body with
      | .invalid => some (err500 "Invalid JSON in request body", none)
      | .parsed b =>
          let rc := ampApiRequest key wire "updateTask" (updateParams t b)
          some (respond rc.1 200, rc.2)
  | .put, none => none
  | .delete, some t =>
      let rc := ampApiRequest key wire "deleteTask" [("taskID", JsValue.str t)]
      some (respond rc.1 200, rc.2)
  | .delete, none => none

/-- Whether the route handler for this verb reads the request body
(`parseBody` is awaited only by the POST and PUT handlers). -/
def verbReadsBody : Verb → Bool
  | .post => true
  | .put => true
  | _ => false

/-- Modelled from the spec's error taxonomy (§7): the message of the error,
if any, raised while serving a matched `/api/tasks` route, in the order the
handler encounters them — invalid local request body first (parsed before
anything else on POST/PUT), then the missing credential, then whatever the
remote call adapter rejects with. -/
def raisedErrorMsg (verb : Verb) (body : BodyOutcome) (key : Option String)
    (wire : Wire) : Option String :=
  match verbReadsBody verb, body with
  | true, .invalid => some "Invalid JSON in request body"
  | _, _ =>
      if optStrTruthy key then
        match unwrapWire wire with
        | .error m => some m
        | .ok _ => none
      else some noApiKeyMsg

/-- Modelled from the spec: outbound params key `k` of the remote call `c`
"corresponds to a field that was supplied with a defined value locally" —
a query-string parameter for listTasks, a defined (possibly null) request
body field for createTask/updateTask, or the path-embedded id for the
taskID param. -/
def locallySupplied (c : RemoteCall) (query : List (String × String))
    (body : BodyOutcome) (taskId : Option String) (k : String) : Prop :=
  (c.method = "listTasks" ∧ (query.lookup k).isSome = true) ∨
  ((c.method = "createTask" ∨ c.method = "updateTask") ∧
     ∃ b, body = BodyOutcome.parsed b ∧ (jget b k).isSome = true) ∨
  ((c.method = "getTask" ∨ c.method = "updateTask" ∨ c.method = "deleteTask") ∧
     k = "taskID" ∧ (truthyId taskId).isSome = true)

/-! Helper lemmas about association list lookup and the param builders. -/

theorem lookup_cons_self {β : Type} (k : String) (b : β) (l : List (String × β)) :
    List.lookup k ((k, b) :: l) = some b := by
  simp [List.lookup]

theorem lookup_cons_ne {β : Type} {k k0 : String} (h : k ≠ k0) (b : β) (l : List (String × β)) :
    List.lookup k ((k0, b) :: l) = List.lookup k l := by
  simp [List.lookup, beq_false_of_ne h]

theorem stripUndef_cons_none (k0 : String) (l : List (String × Option JsValue)) :
    stripUndef ((k0, none) :: l) = stripUndef l := rfl

theorem stripUndef_cons_some (k0 : String) (w : JsValue) (l : List (String × Option JsValue)) :
    stripUndef ((k0, some w) :: l) = (k0, w) :: stripUndef l := rfl

/-- Membership in the stripped param list is membership with a defined
value in the pre-strip template. -/
theorem mem_stripUndef {l : List (String × Option JsValue)} {k : String} {v : JsValue} :
    (k, v) ∈ stripUndef l ↔ (k, some v) ∈ l := by
  induction l with
  | nil => simp [stripUndef]
  | cons kv rest ih =>
      obtain ⟨k0, ov⟩ := kv
      cases ov with
      | none =>
          rw [stripUndef_cons_none]
          simp only [List.mem_cons, ih]
          constructor
          · exact Or.inr
          · rintro (h | h)
            · exact absurd (congrArg Prod.snd h) (by simp)
            · exact h
      | some w =>
          rw [stripUndef_cons_some]
          simp only [List.mem_cons, ih, Prod.ext_iff]
          constructor
          · rintro (⟨h1, h2⟩ | h)
            · exact Or.inl ⟨h1, by simp [h2]⟩
            · exact Or.inr h
          · rintro (⟨h1, h2⟩ | h)
            · exact Or.inl ⟨h1, by simpa using h2⟩
            · exact Or.inr h

/-- A key absent from the template is absent from the stripped list. -/
theorem lookup_stripUndef_of_not_mem {l : List (String × Option JsValue)} {k : String}
    (h : k ∉ l.map Prod.fst) : (stripUndef l).lookup k = none := by
  induction l with
  | nil => simp [stripUndef]
  | cons kv rest ih =>
      obtain ⟨k0, ov⟩ := kv
      simp only [List.map_cons, List.mem_cons] at h
      push_neg at h
      cases ov with
      | none =>
          rw [stripUndef_cons_none]
          exact ih h.2
      | some w =>
          rw [stripUndef_cons_some, lookup_cons_ne h.1]
          exact ih h.2

/-- Looking a key up after the strip is the join of looking it up in the
template, provided the template keys are distinct. -/
theorem lookup_stripUndef {l : List (String × Option JsValue)} {k : String}
    (h : (l.map Prod.fst).Nodup) :
    (stripUndef l).lookup k = (l.lookup k).join := by
  induction l with
  | nil => simp [stripUndef]
  | cons kv rest ih =>
      obtain ⟨k0, ov⟩ := kv
      simp only [List.map_cons, List.nodup_cons] at h
      by_cases hk : k = k0
      · subst hk
        cases ov with
        | none =>
            rw [stripUndef_cons_none, lookup_cons_self]
            exact lookup_stripUndef_of_not_mem h.1
        | some w =>
            rw [stripUndef_cons_some, lookup_cons_self, lookup_cons_self]
            rfl
      · cases ov with
        | none =>
            rw [stripUndef_cons_none, lookup_cons_ne hk]
            exact ih h.2
        | some w =>
            rw [stripUndef_cons_some, lookup_cons_ne hk, lookup_cons_ne hk]
            exact ih h.2

theorem listParams_lookup_limit (q : List (String × String)) :
    (listParams q).lookup "limit" = some (JsValue.num (limitOf q)) := by
  show List.lookup "limit" (("limit", JsValue.num (limitOf q)) :: _) = _
  exact lookup_cons_self _ _ _

theorem mem_listParams {q : List (String × String)} {k : String} {v : JsValue}
    (h : (k, v) ∈ listParams q) :
    k = "limit" ∨ (q.lookup k).isSome = true := by
  unfold listParams at h
  simp only [List.append_assoc, List.singleton_append, List.cons_append,
    List.nil_append, List.mem_cons, List.mem_append] at h
  rcases h with h | h
  · exact Or.inl (congrArg Prod.fst h)
  refine Or.inr ?_
  rcases h with h | h | h
  · split at h
    next s heq =>
      by_cases hs : s = ""
      · rw [if_pos hs] at h; simp at h
      · rw [if_neg hs] at h
        simp only [List.mem_singleton] at h
        cases h
        rw [heq]; rfl
    next heq => simp at h
  · split at h
    next r heq =>
      by_cases hr : r = ""
      · rw [if_pos hr] at h; simp at h
      · rw [if_neg hr] at h
        simp only [List.mem_singleton] at h
        cases h
        rw [heq]; rfl
    next heq => simp at h
  · by_cases hrd : q.lookup "ready" = some "true"
    · rw [if_pos hrd] at h
      simp only [List.mem_singleton] at h
      cases h
      rw [hrd]; rfl
    · rw [if_neg hrd] at h; simp at h

/-- A truthy `ok` envelope resolves unchanged. -/
theorem unwrapWire_ok {v : JsValue} (h : okTruthy v = true) :
    unwrapWire (Wire.json v) = Except.ok v := by
  cases v <;> simp_all [unwrapWire, okTruthy, objGet]

/-- A parsed non-null envelope with falsy `ok` rejects with the remote
error message. -/
theorem unwrapWire_notOk {v : JsValue} (hnull : v ≠ JsValue.null) (h : okTruthy v = false) :
    unwrapWire (Wire.json v) = Except.error (remoteErrorMessage v) := by
  cases v <;> simp_all [unwrapWire, okTruthy, objGet]

/-- A falsy key throws before any network request is made. -/
theorem ampApiRequest_noKey {key : Option String} {wire : Wire} {method : String}
    {params : List (String × JsValue)} (h : optStrTruthy key = false) :
    ampApiRequest key wire method params = (Except.error noApiKeyMsg, none) := by
  simp [ampApiRequest, h]

/-- A truthy key issues exactly one request and unwraps its response. -/
theorem ampApiRequest_key {key : Option String} {wire : Wire} {method : String}
    {params : List (String × JsValue)} (h : optStrTruthy key = true) :
    ampApiRequest key wire method params = (unwrapWire wire, some ⟨method, params⟩) := by
  simp [ampApiRequest, h]

theorem lookup_append {β : Type} (k : String) (l1 l2 : List (String × β)) :
    List.lookup k (l1 ++ l2) =
      match List.lookup k l1 with
      | some v => some v
      | none => List.lookup k l2 := by
  induction l1 with
  | nil => simp
  | cons kv rest ih =>
      obtain ⟨k0, b⟩ := kv
      by_cases hk : k = k0
      · subst hk
        rw [List.cons_append, lookup_cons_self, lookup_cons_self]
      · rw [List.cons_append, lookup_cons_ne hk, lookup_cons_ne hk, ih]

theorem listParams_lookup_ready (q : List (String × String)) :
    (listParams q).lookup "ready" =
      (if q.lookup "ready" = some "true" then some (JsValue.bool true) else none) := by
  unfold listParams
  rw [List.append_assoc, List.append_assoc, List.singleton_append,
    lookup_cons_ne (by decide), lookup_append, lookup_append]
  have h2 : List.lookup "ready"
      (match q.lookup "status" with
       | some s => if s = "" then [] else [("status", JsValue.str s)]
       | none => []) = none := by
    split
    · split
      · rfl
      · rw [lookup_cons_ne (by decide)]; rfl
    · rfl
  have h3 : List.lookup "ready"
      (match q.lookup "repoURL" with
       | some s => if s = "" then [] else [("repoURL", JsValue.str s)]
       | none => []) = none := by
    split
    · split
      · rfl
      · rw [lookup_cons_ne (by decide)]; rfl
    · rfl
  rw [h2, h3]
  by_cases hrd : q.lookup "ready" = some "true"
  · rw [if_pos hrd, if_pos hrd, lookup_cons_self]
  · rw [if_neg hrd, if_neg hrd]; rfl

/-- Claim C7: the GET-list remote params contain ready (with value true)
exactly when the ready query parameter equals the literal string "true"; for
any other value, and when absent, no ready key is sent at all. -/
theorem list_ready_param_iff_true (q : List (String × String)) :
    (q.lookup "ready" = some "true" → (listParams q).lookup "ready" = some (JsValue.bool true)) ∧
    (q.lookup "ready" ≠ some "true" → (listParams q).lookup "ready" = none) := by
  constructor <;> intro h <;> rw [listParams_lookup_ready] <;> simp [h]

/-- Claim C8: a non-numeric limit query parameter (parseInt yields NaN)
produces the same remote params as an absent limit parameter, and the limit
sent is 100 in both cases. -/
theorem list_limit_nonnumeric_default (q q2 : List (String × String)) (s : String)
    (hs : q.lookup "limit" = some s) (hnan : parseIntJS s = none)
    (h0 : q2.lookup "limit" = none)
    (hst : q2.lookup "status" = q.lookup "status")
    (hrp : q2.lookup "repoURL" = q.lookup "repoURL")
    (hrd : q2.lookup "ready" = q.lookup "ready") :
    listParams q = listParams q2 ∧ (listParams q).lookup "limit" = some (JsValue.num 100) := by
  have hl : limitOf q = 100 := by unfold limitOf; simp only [hs, hnan]
  have hl2 : limitOf q2 = 100 := by unfold limitOf; simp only [h0]
  constructor
  · unfold listParams
    rw [hl, hl2, hst, hrp, hrd]
  · rw [listParams_lookup_limit, hl]

/-- Claim C9: a supplied limit whose integer parse yields 0 is also replaced by
the default 100 — the fallback triggers precisely when the parse result is NaN
or 0, while any non-zero parse result is sent as-is. -/
theorem list_limit_zero_fallback (q : List (String × String)) (s : String)
    (hs : q.lookup "limit" = some s) :
    ((parseIntJS s = none ∨ parseIntJS s = some 0) →
        (listParams q).lookup "limit" = some (JsValue.num 100)) ∧
    (∀ n : Int, parseIntJS s = some n → n ≠ 0 →
        (listParams q).lookup "limit" = some (JsValue.num n)) := by
  constructor
  · intro h
    rw [listParams_lookup_limit]
    unfold limitOf
    rcases h with h | h <;> simp [hs, h]
  · intro n hn hnz
    rw [listParams_lookup_limit]
    unfold limitOf
    simp only [hs, hn, if_neg hnz]

/-- Claim C2: a POST /api/tasks request with body {title:"t"} issues exactly one
remote call, createTask with params exactly {title:"t", status:"open"}, and on
remote success the local response is HTTP 201 with the returned envelope as
body, unchanged. -/
theorem post_create_roundtrip (file : Option (List (String × String))) (env : Option String)
    (v : JsValue) (hkey : optStrTruthy (getApiKey file env) = true) (hok : okTruthy v = true) :
    handleTasks Verb.post none [] (BodyOutcome.parsed [("title", JsValue.str "t")])
        file env (Wire.json v)
      = some (⟨201, v⟩, some ⟨"createTask",
          [("title", JsValue.str "t"), ("status", JsValue.str "open")]⟩) := by
  have h1 := @ampApiRequest_key (getApiKey file env) (Wire.json v) "createTask"
      [("title", JsValue.str "t"), ("status", JsValue.str "open")] hkey
  have hc : createParams [("title", JsValue.str "t")]
      = [("title", JsValue.str "t"), ("status", JsValue.str "open")] := rfl
  simp [handleTasks, truthyId, hc, h1, unwrapWire_ok hok, respond]

/-- Claim C5: credential resolution returns the service-qualified secrets-file
key when present, otherwise the generic key, otherwise the environment
variable; the environment variable is the result exactly when the file read or
parse throws or neither file key matches, and resolution yields nothing only
when all three sources are absent.  (Stored credentials are assumed non-empty:
an empty string is falsy in the source and would behave as a non-match.) -/
theorem getApiKey_resolution_order (file : List (String × String)) (env : Option String)
    (hwf1 : file.lookup serviceApiKeyName ≠ some "")
    (hwf2 : file.lookup "apiKey" ≠ some "") :
    (∀ v, file.lookup serviceApiKeyName = some v → getApiKey (some file) env = some v) ∧
    (file.lookup serviceApiKeyName = none →
        ∀ v, file.lookup "apiKey" = some v → getApiKey (some file) env = some v) ∧
    (file.lookup serviceApiKeyName = none → file.lookup "apiKey" = none →
        getApiKey (some file) env = env) ∧
    (getApiKey none env = env) ∧
    (getApiKey (some file) env = none ↔
        (file.lookup serviceApiKeyName = none ∧ file.lookup "apiKey" = none ∧ env = none)) := by
  have hw1 : ∀ v, file.lookup serviceApiKeyName = some v → v ≠ "" :=
    fun _ hv e => hwf1 (e ▸ hv)
  have hw2 : ∀ v, file.lookup "apiKey" = some v → v ≠ "" :=
    fun _ hv e => hwf2 (e ▸ hv)
  refine ⟨?_, ?_, ?_, rfl, ?_⟩
  · intro v hv
    simp [getApiKey, hv, strOr, hw1 v hv]
  · intro h1 v hv
    simp [getApiKey, h1, hv, strOr, hw2 v hv]
  · intro h1 h2
    simp [getApiKey, h1, h2, strOr]
  · constructor
    · intro h
      rcases h1 : file.lookup serviceApiKeyName with _ | v
      · rcases h2 : file.lookup "apiKey" with _ | w
        · refine ⟨rfl, rfl, ?_⟩
          simpa [getApiKey, h1, h2, strOr] using h
        · exfalso
          simp [getApiKey, h1, h2, strOr, hw2 w h2] at h
      · exfalso
        simp [getApiKey, h1, strOr, hw1 v h1] at h
    · rintro ⟨h1, h2, h3⟩
      simp [getApiKey, h1, h2, h3, strOr]

/-- Claim C3, counterexample: the remote envelope {ok:false, error:{message:""}}
has its error.message field present (with value ""), yet the adapter rejects
with the generic message "API request failed", which differs from "".  The
claim as stated (message equals error.message whenever the field is present)
therefore fails at this input. -/
theorem empty_error_message_generic :
    errMsgField (JsValue.obj [("ok", JsValue.bool false),
        ("error", JsValue.obj [("message", JsValue.str "")])]) = some (JsValue.str "") ∧
    unwrapWire (Wire.json (JsValue.obj [("ok", JsValue.bool false),
        ("error", JsValue.obj [("message", JsValue.str "")])]))
      = Except.error "API request failed" ∧
    "API request failed" ≠ "" := by
  refine ⟨rfl, ?_, by decide⟩
  simp [unwrapWire, okTruthy, objGet, List.lookup, JsValue.truthy,
    remoteErrorMessage, errMsgField, jsOrDefault, jsToString]

/-- Claim C3 (amended): every remote response that parses as JSON with ok equal
to false makes the adapter fail, never succeed; the failure message equals the
envelope error.message when that field is present with a non-empty string
value, and is the fixed generic message "API request failed" when the field is
absent or the empty string. -/
theorem remote_error_unwrap (v : JsValue) (hok : objGet v "ok" = some (JsValue.bool false)) :
    (∃ m, unwrapWire (Wire.json v) = Except.error m) ∧
    (∀ s, errMsgField v = some (JsValue.str s) → s ≠ "" →
        unwrapWire (Wire.json v) = Except.error s) ∧
    ((errMsgField v = none ∨ errMsgField v = some (JsValue.str "")) →
        unwrapWire (Wire.json v) = Except.error "API request failed") := by
  have hne : v ≠ JsValue.null := by rintro rfl; simp [objGet] at hok
  have hft : okTruthy v = false := by simp [okTruthy, hok, JsValue.truthy]
  have hu : unwrapWire (Wire.json v) = Except.error (remoteErrorMessage v) :=
    unwrapWire_notOk hne hft
  refine ⟨⟨_, hu⟩, ?_, ?_⟩
  · intro s hs hsne
    rw [hu]
    unfold remoteErrorMessage
    rw [hs]
    simp [jsOrDefault, JsValue.truthy, hsne, jsToString]
  · intro hcase
    rw [hu]
    unfold remoteErrorMessage
    rcases hcase with h | h <;> rw [h] <;> simp [jsOrDefault, JsValue.truthy, jsToString]

/-- Claim C10, counterexample: a POST body with status explicitly null does not
forward null — the falsy status is replaced by the default "open".  The claim
as stated (a field explicitly set to JSON null is kept and forwarded as null)
therefore fails for the status field of the create route. -/
theorem create_status_null_becomes_open :
    createParams [("status", JsValue.null)] = [("status", JsValue.str "open")] ∧
    JsValue.str "open" ≠ JsValue.null :=
  ⟨rfl, fun h => JsValue.noConfusion h⟩

/-- Claim C10 (amended): in POST create and PUT update only fields whose value
is undefined (absent) are stripped from the outbound params; a field explicitly
set to JSON null is kept and forwarded as null — except the status field of
POST create, where a null (falsy) status is replaced by the default "open". -/
theorem null_fields_forwarded_except_create_status
    (b : List (String × JsValue)) (t k : String) :
    (jget b k = some JsValue.null →
        k ∈ ["title", "description", "repoURL", "dependsOn", "parentID"] →
        (createParams b).lookup k = some JsValue.null) ∧
    (jget b "status" = some JsValue.null →
        (createParams b).lookup "status" = some (JsValue.str "open")) ∧
    (jget b k = some JsValue.null →
        k ∈ ["title", "description", "status", "repoURL", "dependsOn", "parentID"] →
        (updateParams t b).lookup k = some JsValue.null) ∧
    (∀ v : JsValue, jget b k = some v →
        k ∈ ["title", "description", "status", "repoURL", "dependsOn", "parentID"] →
        ((createParams b).lookup k).isSome = true ∧
        ((updateParams t b).lookup k).isSome = true) := by
  have hc : ∀ k0 : String, (createParams b).lookup k0 =
      (List.lookup k0
        [("title", jget b "title"),
         ("description", jget b "description"),
         ("status", some (jsOrDefault (jget b "status") (JsValue.str "open"))),
         ("repoURL", jget b "repoURL"),
         ("dependsOn", jget b "dependsOn"),
         ("parentID", jget b "parentID")]).join := by
    intro k0
    unfold createParams
    refine lookup_stripUndef ?_
    show (["title", "description", "status", "repoURL", "dependsOn",
      "parentID"] : List String).Nodup
    decide
  have hup : ∀ k0 : String, (updateParams t b).lookup k0 =
      (List.lookup k0
        [("taskID", some (JsValue.str t)),
         ("title", jget b "title"),
         ("description", jget b "description"),
         ("status", jget b "status"),
         ("repoURL", jget b "repoURL"),
         ("dependsOn", jget b "dependsOn"),
         ("parentID", jget b "parentID")]).join := by
    intro k0
    unfold updateParams
    refine lookup_stripUndef ?_
    show (["taskID", "title", "description", "status", "repoURL", "dependsOn",
      "parentID"] : List String).Nodup
    decide
  refine ⟨?_, ?_, ?_, ?_⟩
  · intro hv hk
    fin_cases hk <;> rw [hc] <;> simp [List.lookup, hv]
  · intro hv
    rw [hc]
    simp [List.lookup, hv, jsOrDefault, JsValue.truthy]
  · intro hv hk
    fin_cases hk <;> rw [hup] <;> simp [List.lookup, hv]
  · intro v hv hk
    fin_cases hk <;> constructor <;> (first | rw [hc] | rw [hup]) <;>
      simp [List.lookup, hv]

/-- Claim C6: when no credential is resolvable (secrets file unreadable, no
environment override), every matched /api/tasks route with a well-formed body
responds HTTP 500 with the missing-credential message, and no remote request is
issued at all. -/
theorem missing_credential_500_no_call (verb : Verb) (taskId : Option String)
    (query : List (String × String)) (b : List (String × JsValue)) (wire : Wire)
    (resp : HttpResponse) (call : Option RemoteCall)
    (h : handleTasks verb taskId query (BodyOutcome.parsed b) none none wire
        = some (resp, call)) :
    resp = err500 noApiKeyMsg ∧ call = none := by
  have hk : optStrTruthy (getApiKey none none) = false := rfl
  cases verb <;> rcases ht : truthyId taskId with _ | t <;>
    simp only [handleTasks, ht] at h <;>
    first
      | exact Option.noConfusion h
      | (rw [ampApiRequest_noKey hk] at h
         simp only [respond, Option.some.injEq, Prod.mk.injEq] at h
         exact ⟨h.1.symm, h.2.symm⟩)

/-- Claim C4: whenever an error is raised while serving a matched /api/tasks
route (invalid local request body, missing credential, transport error, invalid
remote JSON, or remote-reported failure), the local response is HTTP 500 with
the uniform JSON body {ok:false, error:<the error message>}, regardless of
which error kind occurred. -/
theorem route_errors_uniform_500 (verb : Verb) (taskId : Option String)
    (query : List (String × String)) (body : BodyOutcome)
    (file : Option (List (String × String))) (env : Option String) (wire : Wire)
    (resp : HttpResponse) (call : Option RemoteCall) (m : String)
    (h : handleTasks verb taskId query body file env wire = some (resp, call))
    (hm : raisedErrorMsg verb body (getApiKey file env) wire = some m) :
    resp = err500 m := by
  cases hk : optStrTruthy (getApiKey file env) <;>
    cases verb <;> rcases ht : truthyId taskId with _ | t <;> cases body <;>
      simp only [handleTasks, ht] at h <;>
      first
        | exact Option.noConfusion h
        | (simp only [raisedErrorMsg, verbReadsBody] at hm
           simp only [Option.some.injEq, Prod.mk.injEq] at h hm
           subst hm
           exact h.1.symm)
        | (rw [ampApiRequest_noKey hk] at h
           simp [raisedErrorMsg, verbReadsBody, hk] at hm
           simp only [respond, Option.some.injEq, Prod.mk.injEq] at h
           subst hm
           exact h.1.symm)
        | (rw [ampApiRequest_key hk] at h
           simp [raisedErrorMsg, verbReadsBody, hk] at hm
           cases hu : unwrapWire wire with
           | ok v => rw [hu] at hm; simp at hm
           | error m2 =>
               rw [hu] at h hm
               simp only [Option.some.injEq] at hm
               simp only [respond, Option.some.injEq, Prod.mk.injEq] at h
               subst hm
               exact h.1.symm)

/-- Claim C1 (amended): for every matched CRUD route that issues a remote call,
every key present in the outbound params corresponds to a field supplied with a
defined value locally (a query parameter for listTasks, a defined body field for
createTask/updateTask, the path id for taskID), or is the createTask status
default "open", or is the listTasks limit default 100 (the limit key is always
sent, defaulting to 100 when no limit parameter was supplied). -/
theorem outbound_keys_locally_supplied_or_defaults
    (verb : Verb) (taskId : Option String) (query : List (String × String))
    (body : BodyOutcome) (file : Option (List (String × String))) (env : Option String)
    (wire : Wire) (resp : HttpResponse) (c : RemoteCall)
    (h : handleTasks verb taskId query body file env wire = some (resp, some c))
    (k : String) (v : JsValue) (hkv : (k, v) ∈ c.params) :
    locallySupplied c query body taskId k ∨
    (c.method = "createTask" ∧ k = "status") ∨
    (c.method = "listTasks" ∧ k = "limit") := by
  obtain ⟨cm, cp⟩ := c
  simp only [locallySupplied] at hkv ⊢
  cases hk : optStrTruthy (getApiKey file env) <;>
    cases verb <;> rcases ht : truthyId taskId with _ | t <;> rcases body with _ | b <;>
      simp only [handleTasks, ht] at h <;>
      first
        | exact Option.noConfusion h
        | (rw [ampApiRequest_noKey hk] at h
           simp only [Option.some.injEq, Prod.mk.injEq] at h
           exact Option.noConfusion h.2)
        | (simp only [Option.some.injEq, Prod.mk.injEq] at h
           exact Option.noConfusion h.2)
        | (rw [ampApiRequest_key hk] at h
           simp only [Option.some.injEq, Prod.mk.injEq, RemoteCall.mk.injEq] at h
           obtain ⟨h1, h2, h3⟩ := h
           subst h2
           subst h3
           rcases mem_listParams hkv with hlim | hs
           · exact Or.inr (Or.inr ⟨rfl, hlim⟩)
           · exact Or.inl (Or.inl ⟨rfl, hs⟩))
        | (rw [ampApiRequest_key hk] at h
           simp only [Option.some.injEq, Prod.mk.injEq, RemoteCall.mk.injEq] at h
           obtain ⟨h1, h2, h3⟩ := h
           subst h2
           subst h3
           simp only [List.mem_singleton, Prod.mk.injEq] at hkv
           obtain ⟨rfl, -⟩ := hkv
           exact Or.inl (Or.inr (Or.inr ⟨by simp, rfl, rfl⟩)))
        | (rw [ampApiRequest_key hk] at h
           simp only [Option.some.injEq, Prod.mk.injEq, RemoteCall.mk.injEq] at h
           obtain ⟨h1, h2, h3⟩ := h
           subst h2
           subst h3
           unfold createParams at hkv
           rw [mem_stripUndef] at hkv
           simp only [List.mem_cons, List.not_mem_nil, or_false, Prod.mk.injEq] at hkv
           rcases hkv with ⟨rfl, hv⟩ | ⟨rfl, hv⟩ | ⟨rfl, hv⟩ | ⟨rfl, hv⟩ | ⟨rfl, hv⟩ | ⟨rfl, hv⟩
           · exact Or.inl (Or.inr (Or.inl ⟨Or.inl rfl, b, rfl, by rw [← hv]; rfl⟩))
           · exact Or.inl (Or.inr (Or.inl ⟨Or.inl rfl, b, rfl, by rw [← hv]; rfl⟩))
           · exact Or.inr (Or.inl ⟨rfl, rfl⟩)
           · exact Or.inl (Or.inr (Or.inl ⟨Or.inl rfl, b, rfl, by rw [← hv]; rfl⟩))
           · exact Or.inl (Or.inr (Or.inl ⟨Or.inl rfl, b, rfl, by rw [← hv]; rfl⟩))
           · exact Or.inl (Or.inr (Or.inl ⟨Or.inl rfl, b, rfl, by rw [← hv]; rfl⟩)))
        | (rw [ampApiRequest_key hk] at h
           simp only [Option.some.injEq, Prod.mk.injEq, RemoteCall.mk.injEq] at h
           obtain ⟨h1, h2, h3⟩ := h
           subst h2
           subst h3
           unfold updateParams at hkv
           rw [mem_stripUndef] at hkv
           simp only [List.mem_cons, List.not_mem_nil, or_false, Prod.mk.injEq] at hkv
           rcases hkv with ⟨rfl, hv⟩ | ⟨rfl, hv⟩ | ⟨rfl, hv⟩ | ⟨rfl, hv⟩ | ⟨rfl, hv⟩ |
             ⟨rfl, hv⟩ | ⟨rfl, hv⟩
           · exact Or.inl (Or.inr (Or.inr ⟨Or.inr (Or.inl rfl), rfl, rfl⟩))
           · exact Or.inl (Or.inr (Or.inl ⟨Or.inr rfl, b, rfl, by rw [← hv]; rfl⟩))
           · exact Or.inl (Or.inr (Or.inl ⟨Or.inr rfl, b, rfl, by rw [← hv]; rfl⟩))
           · exact Or.inl (Or.inr (Or.inl ⟨Or.inr rfl, b, rfl, by rw [← hv]; rfl⟩))
           · exact Or.inl (Or.inr (Or.inl ⟨Or.inr rfl, b, rfl, by rw [← hv]; rfl⟩))
           · exact Or.inl (Or.inr (Or.inl ⟨Or.inr rfl, b, rfl, by rw [← hv]; rfl⟩))
           · exact Or.inl (Or.inr (Or.inl ⟨Or.inr rfl, b, rfl, by rw [← hv]; rfl⟩)))

/-- Claim C1, counterexample: a GET /api/tasks request with no query
parameters at all still sends a remote listTasks call whose params contain
the key limit (with the default value 100), even though no limit was
supplied locally — contradicting the claim, which allows a locally
unsupplied key only for the createTask status default. -/
theorem listTasks_limit_sent_without_local_limit :
    handleTasks Verb.get none [] (BodyOutcome.parsed []) (some [("apiKey", "k")]) none
        (Wire.json (JsValue.obj [("ok", JsValue.bool true)]))
      = some (⟨200, JsValue.obj [("ok", JsValue.bool true)]⟩,
          some ⟨"listTasks", [("limit", JsValue.num 100)]⟩) ∧
    List.lookup "limit" ([] : List (String × String)) = none :=
  ⟨rfl, rfl⟩

/-- Witness for claim C1: the amended theorem applied to a concrete GET-list
request with an empty query, at the outbound key limit. -/
theorem outbound_keys_witness :
    locallySupplied ⟨"listTasks", [("limit", JsValue.num 100)]⟩ [] (BodyOutcome.parsed [])
        none "limit" ∨
    ((⟨"listTasks", [("limit", JsValue.num 100)]⟩ : RemoteCall).method = "createTask" ∧
        "limit" = "status") ∨
    ((⟨"listTasks", [("limit", JsValue.num 100)]⟩ : RemoteCall).method = "listTasks" ∧
        "limit" = "limit") :=
  outbound_keys_locally_supplied_or_defaults Verb.get none [] (BodyOutcome.parsed [])
    (some [("apiKey", "k")]) none (Wire.json (JsValue.obj [("ok", JsValue.bool true)]))
    ⟨200, JsValue.obj [("ok", JsValue.bool true)]⟩ ⟨"listTasks", [("limit", JsValue.num 100)]⟩
    rfl "limit" (JsValue.num 100) (by simp)

/-- Witness for claim C2: the round trip evaluated at a concrete credential
file and a concrete successful remote envelope. -/
theorem post_create_roundtrip_witness :
    handleTasks Verb.post none [] (BodyOutcome.parsed [("title", JsValue.str "t")])
        (some [("apiKey", "k")]) none (Wire.json (JsValue.obj [("ok", JsValue.bool true)]))
      = some (⟨201, JsValue.obj [("ok", JsValue.bool true)]⟩,
          some ⟨"createTask", [("title", JsValue.str "t"), ("status", JsValue.str "open")]⟩) :=
  post_create_roundtrip (some [("apiKey", "k")]) none (JsValue.obj [("ok", JsValue.bool true)])
    rfl rfl

/-- Witness for claim C3: the amended theorem applied to the envelope
{ok:false, error:{message:"x"}} yields the error message "x". -/
theorem remote_error_unwrap_witness :
    unwrapWire (Wire.json (JsValue.obj [("ok", JsValue.bool false),
        ("error", JsValue.obj [("message", JsValue.str "x")])])) = Except.error "x" :=
  (remote_error_unwrap (JsValue.obj [("ok", JsValue.bool false),
      ("error", JsValue.obj [("message", JsValue.str "x")])]) rfl).2.1 "x" rfl (by decide)

/-- Witness for claim C4: a GET-list request with a resolvable-credential
failure (no credential at all) renders the uniform 500 body with the
missing-credential message. -/
theorem route_errors_uniform_500_witness :
    (⟨500, JsValue.obj [("ok", JsValue.bool false),
        ("error", JsValue.str noApiKeyMsg)]⟩ : HttpResponse) = err500 noApiKeyMsg :=
  route_errors_uniform_500 Verb.get none [] (BodyOutcome.parsed []) none none
    Wire.invalidJson
    ⟨500, JsValue.obj [("ok", JsValue.bool false), ("error", JsValue.str noApiKeyMsg)]⟩
    none noApiKeyMsg rfl rfl

/-- Witness for claim C5: a secrets file holding only the generic key
resolves to that key. -/
theorem getApiKey_resolution_witness :
    getApiKey (some [("apiKey", "k")]) none = some "k" :=
  (getApiKey_resolution_order [("apiKey", "k")] none (by decide) (by decide)).2.1 rfl "k" rfl

/-- Witness for claim C6: a concrete GET request with unreadable secrets
file and no env override gets the 500 missing-credential response and no
remote call. -/
theorem missing_credential_witness :
    (⟨500, JsValue.obj [("ok", JsValue.bool false),
        ("error", JsValue.str noApiKeyMsg)]⟩ : HttpResponse) = err500 noApiKeyMsg ∧
    (none : Option RemoteCall) = none :=
  missing_credential_500_no_call Verb.get none [] [] Wire.invalidJson
    ⟨500, JsValue.obj [("ok", JsValue.bool false), ("error", JsValue.str noApiKeyMsg)]⟩
    none rfl

/-- Witness for claim C7: ready equal to the literal "true" sends
ready:true; an absent ready parameter sends no ready key. -/
theorem list_ready_param_witness :
    (listParams [("ready", "true")]).lookup "ready" = some (JsValue.bool true) ∧
    (listParams []).lookup "ready" = none :=
  ⟨(list_ready_param_iff_true [("ready", "true")]).1 rfl,
   (list_ready_param_iff_true []).2 (by decide)⟩

/-- Witness for claim C8: limit=abc builds the same params as no limit, and
the limit sent is 100. -/
theorem list_limit_nonnumeric_witness :
    listParams [("limit", "abc")] = listParams [] ∧
    (listParams [("limit", "abc")]).lookup "limit" = some (JsValue.num 100) :=
  list_limit_nonnumeric_default [("limit", "abc")] [] "abc" rfl rfl rfl rfl rfl rfl

/-- Witness for claim C9: limit=0 parses to the number 0 (it is numeric),
yet the limit sent to the remote is the default 100. -/
theorem list_limit_zero_witness :
    (listParams [("limit", "0")]).lookup "limit" = some (JsValue.num 100) ∧
    parseIntJS "0" = some 0 :=
  ⟨(list_limit_zero_fallback [("limit", "0")] "0" rfl).1 (Or.inr rfl), rfl⟩

/-- Witness for claim C10: an explicit null description on POST create is
forwarded as null, and an explicit null status on PUT update is forwarded
as null. -/
theorem null_fields_witness :
    (createParams [("description", JsValue.null)]).lookup "description"
      = some JsValue.null ∧
    (updateParams "85" [("status", JsValue.null)]).lookup "status" = some JsValue.null :=
  ⟨(null_fields_forwarded_except_create_status [("description", JsValue.null)] "85"
      "description").1 rfl (by decide),
   (null_fields_forwarded_except_create_status [("status", JsValue.null)] "85"
      "status").2.2.1 rfl (by decide)⟩
